import Mathlib

/-!
Formal model of clok4 (src/clok4.c), a GTK4 analog clock that composites
layered SVG assets: a static background pass cached by output size, and a
dynamic pass of hand/shadow layers rotated from the current local time.
Definitions below are shallow embeddings of the C functions; machine
integers are modelled as Int (with explicit truncating division / unsigned
conversion where the C code relies on them), doubles as Rat, and the Cairo
drawing context as an explicit trace of drawing operations.
-/

namespace Clok4

/-- The LayerElement enum of clok4.c (lines 23-37): the twelve drawable
asset slots, fixed cardinality. -/
inductive LayerElement where
  | dropShadow
  | face
  | marks
  | hourHandShadow
  | minuteHandShadow
  | secondHandShadow
  | hourHand
  | minuteHand
  | secondHand
  | faceShadow
  | glass
  | frame
  deriving DecidableEq, Repr

open LayerElement

/-- Drawing order of the static pass, from the static_layers_info array in
draw_static_layers (clok4.c lines 128-136). -/
def static_layers_info : List LayerElement :=
  [dropShadow, face, marks, faceShadow, glass, frame]

/-- Drawing order of the dynamic pass, from the hand_layers_info array in
draw_clock_hands (clok4.c lines 195-203). -/
def hand_layers_info : List LayerElement :=
  [hourHandShadow, minuteHandShadow, secondHandShadow,
   hourHand, minuteHand, secondHand]

/-! ### Hand angles (draw_clock_hands, clok4.c lines 211-218)

The C code samples hour and minute as int and second as a double including
the sub-second fraction; the three angle formulas are translated over Rat.
The C expression hour % 12 is truncating modulus on int, Int.tmod. -/

/-- Hour hand angle in degrees: (hour % 12) * 30.0 + minute * 0.5 +
second * (0.5 / 60.0), from clok4.c line 216. -/
def angle_hour_deg (hour minute : ℤ) (second : ℚ) : ℚ :=
  ((Int.tmod hour 12 : ℤ) : ℚ) * 30 + (minute : ℚ) * (1/2) + second * ((1/2) / 60)

/-- Minute hand angle in degrees: minute * 6.0 + second * 0.1, from
clok4.c line 217. -/
def angle_minute_deg (minute : ℤ) (second : ℚ) : ℚ :=
  (minute : ℚ) * 6 + second * (1/10)

/-- Second hand angle in degrees: second * 6.0, from clok4.c line 218. -/
def angle_second_deg (second : ℚ) : ℚ :=
  second * 6

/-- C2: for every sampled local time (hour 0-23, minute 0-59, second in
[0,60) including sub-second fraction) the hand angles satisfy
hourAngle = (hour mod 12)*30 + minute*0.5 + second*(0.5/60),
minuteAngle = minute*6 + second*0.1, secondAngle = second*6; and the three
concrete evaluations: 03:00:00.000 gives (90, 0, 0); 00:30:00.000 gives
hourAngle 15 and minuteAngle 180; 00:00:30.000 gives secondAngle 180. -/
theorem hand_angles_formula (hour minute : ℤ) (second : ℚ)
    (hhour0 : 0 ≤ hour) (hhour1 : hour ≤ 23)
    (hmin0 : 0 ≤ minute) (hmin1 : minute ≤ 59)
    (hsec0 : 0 ≤ second) (hsec1 : second < 60) :
    angle_hour_deg hour minute second
        = ((hour % 12 : ℤ) : ℚ) * 30 + (minute : ℚ) * (1/2) + second * ((1/2) / 60)
      ∧ angle_minute_deg minute second = (minute : ℚ) * 6 + second * (1/10)
      ∧ angle_second_deg second = second * 6
      ∧ angle_hour_deg 3 0 0 = 90
      ∧ angle_minute_deg 0 0 = 0
      ∧ angle_second_deg 0 = 0
      ∧ angle_hour_deg 0 30 0 = 15
      ∧ angle_minute_deg 30 0 = 180
      ∧ angle_second_deg 30 = 180 := by
  refine ⟨?_, rfl, rfl, by norm_num [angle_hour_deg, Int.tmod_eq_emod], by norm_num [angle_minute_deg],
    by norm_num [angle_second_deg], by norm_num [angle_hour_deg, Int.tmod_eq_emod],
    by norm_num [angle_minute_deg], by norm_num [angle_second_deg]⟩
  unfold angle_hour_deg
  rw [Int.tmod_eq_emod hhour0 (by norm_num)]

/-- Witness for hand_angles_formula at 03:00:00.000. -/
theorem hand_angles_formula_witness :
    angle_hour_deg 3 0 0
        = (((3 : ℤ) % 12 : ℤ) : ℚ) * 30 + ((0 : ℤ) : ℚ) * (1/2) + (0 : ℚ) * ((1/2) / 60)
      ∧ angle_hour_deg 3 0 0 = 90 := by
  have h := hand_angles_formula 3 0 0 (by norm_num) (by norm_num) (by norm_num)
    (by norm_num) (by norm_num) (by norm_num)
  exact ⟨h.1, h.2.2.2.1⟩

/-! ### Background cache (ensure_bg_cache, clok4.c lines 171-189)

The cairo surface is modelled by its allocation size; the Background
Compositor invocation (draw_static_layers into the new surface, line 187)
is observed through a call counter, and cairo_surface_destroy through the
list of released surfaces. -/

/-- A cairo surface as allocated by cairo_surface_create_similar: the
requested width and height (clok4.c line 181). -/
structure Surface where
  w : ℤ
  h : ℤ
  deriving DecidableEq, Repr

/-- The mutable globals of the background cache (clok4.c lines 55-56)
together with the two observation channels: how many times the Background
Compositor has been invoked, and which surfaces were destroyed. -/
structure BgState where
  bg_cache : Option Surface
  bg_cache_w : ℤ
  bg_cache_h : ℤ
  compose_count : ℕ
  destroyed : List Surface
  deriving DecidableEq, Repr

/-- The function ensure_bg_cache (clok4.c lines 171-189): if a cached
surface exists and its stored dimensions equal the request, return
unchanged; otherwise destroy any existing surface, allocate a new one at
(width, height), render the static layers into it once, and store the new
dimensions. -/
def ensure_bg_cache (st : BgState) (width height : ℤ) : BgState :=
  if st.bg_cache.isSome ∧ width = st.bg_cache_w ∧ height = st.bg_cache_h then
    st
  else
    { bg_cache := some ⟨width, height⟩
      bg_cache_w := width
      bg_cache_h := height
      compose_count := st.compose_count + 1
      destroyed :=
        match st.bg_cache with
        | some s => s :: st.destroyed
        | none => st.destroyed }

/-- C1: on a hit (cached surface exists with matching stored dimensions)
ensure_bg_cache returns the state unchanged, in particular without
invoking the Background Compositor; on a miss it releases any existing
surface, allocates a new surface sized (width, height), invokes the
compositor exactly once, and stores (width, height); and a second
consecutive request with unchanged dimensions is a no-op, performing zero
recomposition. -/
theorem ensure_bg_cache_correct (st : BgState) (width height : ℤ) :
    ((st.bg_cache.isSome ∧ width = st.bg_cache_w ∧ height = st.bg_cache_h) →
        ensure_bg_cache st width height = st)
  ∧ (¬ (st.bg_cache.isSome ∧ width = st.bg_cache_w ∧ height = st.bg_cache_h) →
        (ensure_bg_cache st width height).bg_cache = some ⟨width, height⟩
      ∧ (ensure_bg_cache st width height).bg_cache_w = width
      ∧ (ensure_bg_cache st width height).bg_cache_h = height
      ∧ (ensure_bg_cache st width height).compose_count = st.compose_count + 1
      ∧ (ensure_bg_cache st width height).destroyed
          = (match st.bg_cache with
             | some s => s :: st.destroyed
             | none => st.destroyed))
  ∧ ensure_bg_cache (ensure_bg_cache st width height) width height
      = ensure_bg_cache st width height
  ∧ (ensure_bg_cache (ensure_bg_cache st width height) width height).compose_count
      = (ensure_bg_cache st width height).compose_count := by
  by_cases hhit : st.bg_cache.isSome ∧ width = st.bg_cache_w ∧ height = st.bg_cache_h
  · refine ⟨fun _ => ?_, fun hmiss => absurd hhit hmiss, ?_, ?_⟩ <;>
      simp [ensure_bg_cache, hhit]
  · have hbuild : ensure_bg_cache st width height =
        { bg_cache := some ⟨width, height⟩
          bg_cache_w := width
          bg_cache_h := height
          compose_count := st.compose_count + 1
          destroyed :=
            match st.bg_cache with
            | some s => s :: st.destroyed
            | none => st.destroyed } := by
      simp [ensure_bg_cache, hhit]
    have hsecond : ensure_bg_cache (ensure_bg_cache st width height) width height
        = ensure_bg_cache st width height := by
      rw [hbuild]
      simp [ensure_bg_cache]
    refine ⟨fun hcon => absurd hcon hhit, fun _ => ?_, hsecond, by rw [hsecond]⟩
    rw [hbuild]
    exact ⟨rfl, rfl, rfl, rfl, rfl⟩

/-- Witness for ensure_bg_cache_correct: first call on an empty cache at
400 by 300 composes once; the repeat call changes nothing. -/
theorem ensure_bg_cache_correct_witness :
    (ensure_bg_cache ⟨none, 0, 0, 0, []⟩ 400 300).compose_count = 0 + 1
  ∧ ensure_bg_cache (ensure_bg_cache ⟨none, 0, 0, 0, []⟩ 400 300) 400 300
      = ensure_bg_cache ⟨none, 0, 0, 0, []⟩ 400 300 := by
  have h := ensure_bg_cache_correct ⟨none, 0, 0, 0, []⟩ 400 300
  exact ⟨(h.2.1 (by simp)).2.2.2.1, h.2.2.1⟩

/-! ### Cairo drawing trace

Both draw functions are embedded as pure functions from the loaded layers
(present l: the handle g_svg_handles[l] is non-NULL) and a rasterization
oracle (render_ok l: rsvg_handle_render_document returns TRUE for l) to
the ordered list of cairo / rsvg operations they perform. Rotations carry
the angle in degrees; the C code passes the same angle converted to
radians by the fixed factor pi/180 (clok4.c lines 221-223, 228). -/

/-- One operation performed on the cairo context. renderLayer records an
rsvg_handle_render_document attempt for a layer with viewport
(x, y, vw, vh); warnRender records the g_warning emitted when that
attempt fails. -/
inductive CairoOp where
  | save
  | restore
  | translate (x y : ℚ)
  | scale (sx sy : ℚ)
  | clearTransparent
  | rotate (angle_deg : ℚ)
  | renderLayer (l : LayerElement) (x y vw vh : ℚ)
  | warnRender (l : LayerElement)
  deriving DecidableEq, Repr

/-- Body of the static-pass loop (clok4.c lines 152-165) for one layer:
if the handle is present, attempt to render it into the viewport
(0, 0, cw, ch); on failure log a warning and continue. -/
def static_layer_ops (present render_ok : LayerElement → Bool) (cw ch : ℚ)
    (l : LayerElement) : List CairoOp :=
  if present l then
    CairoOp.renderLayer l 0 0 cw ch ::
      (if render_ok l then [] else [CairoOp.warnRender l])
  else []

/-- The static-pass loop over a list of layers (clok4.c lines 152-165). -/
def static_layer_loop (present render_ok : LayerElement → Bool) (cw ch : ℚ) :
    List LayerElement → List CairoOp
  | [] => []
  | l :: rest =>
      static_layer_ops present render_ok cw ch l
        ++ static_layer_loop present render_ok cw ch rest

/-- The function draw_static_layers (clok4.c lines 126-169): save, scale
by (width / clock_width, height / clock_height), clear to transparent,
render the static layers in order, restore. cw and ch are the clock
geometry globals clock_width and clock_height. -/
def draw_static_layers (present render_ok : LayerElement → Bool)
    (width height cw ch : ℚ) : List CairoOp :=
  [CairoOp.save, CairoOp.scale (width / cw) (height / ch), CairoOp.clearTransparent]
    ++ static_layer_loop present render_ok cw ch static_layers_info
    ++ [CairoOp.restore]

/-- The switch statement of draw_clock_hands (clok4.c lines 244-271):
for each dynamic-pass element, the rotation angle (degrees) and whether it
is a shadow variant; none models the default: continue branch. -/
def hand_layer_case (hour minute : ℤ) (second : ℚ) :
    LayerElement → Option (ℚ × Bool)
  | hourHandShadow => some (angle_hour_deg hour minute second, true)
  | hourHand => some (angle_hour_deg hour minute second, false)
  | minuteHandShadow => some (angle_minute_deg minute second, true)
  | minuteHand => some (angle_minute_deg minute second, false)
  | secondHandShadow => some (angle_second_deg second, true)
  | secondHand => some (angle_second_deg second, false)
  | _ => none

/-- The dynamic-pass loop of draw_clock_hands (clok4.c lines 235-291):
for each present layer, save, translate by (1, 1) when it is a shadow,
rotate by its angle, attempt to render into the (0, 0, cw, ch) viewport,
warn on failure, restore. -/
def hand_layer_loop (present render_ok : LayerElement → Bool) (cw ch : ℚ)
    (hour minute : ℤ) (second : ℚ) : List LayerElement → List CairoOp
  | [] => []
  | l :: rest =>
      (if present l then
        match hand_layer_case hour minute second l with
        | some (angle, is_shadow) =>
            [CairoOp.save]
              ++ (if is_shadow then [CairoOp.translate 1 1] else [])
              ++ [CairoOp.rotate angle, CairoOp.renderLayer l 0 0 cw ch]
              ++ (if render_ok l then [] else [CairoOp.warnRender l])
              ++ [CairoOp.restore]
        | none => []
      else [])
        ++ hand_layer_loop present render_ok cw ch hour minute second rest

/-- The function draw_clock_hands (clok4.c lines 191-295): save, translate
to the output center, scale by (width / clock_width, height / clock_height),
rotate by -90 degrees, draw the dynamic-pass layers in order, restore. -/
def draw_clock_hands (present render_ok : LayerElement → Bool)
    (width height cw ch : ℚ) (hour minute : ℤ) (second : ℚ) : List CairoOp :=
  [CairoOp.save, CairoOp.translate (width / 2) (height / 2),
   CairoOp.scale (width / cw) (height / ch), CairoOp.rotate (-90)]
    ++ hand_layer_loop present render_ok cw ch hour minute second hand_layers_info
    ++ [CairoOp.restore]

/-- Layers for which a render was attempted, in trace order. -/
def renders : List CairoOp → List LayerElement
  | [] => []
  | CairoOp.renderLayer l _ _ _ _ :: rest => l :: renders rest
  | _ :: rest => renders rest

/-- Layers for which a draw-time warning was logged, in trace order. -/
def warns : List CairoOp → List LayerElement
  | [] => []
  | CairoOp.warnRender l :: rest => l :: warns rest
  | _ :: rest => warns rest

lemma renders_append (a b : List CairoOp) :
    renders (a ++ b) = renders a ++ renders b := by
  induction a with
  | nil => rfl
  | cons op rest ih => cases op <;> simp [renders, ih]

lemma warns_append (a b : List CairoOp) :
    warns (a ++ b) = warns a ++ warns b := by
  induction a with
  | nil => rfl
  | cons op rest ih => cases op <;> simp [warns, ih]

lemma static_layer_loop_renders (present render_ok : LayerElement → Bool)
    (cw ch : ℚ) (ls : List LayerElement) :
    renders (static_layer_loop present render_ok cw ch ls) = ls.filter present := by
  induction ls with
  | nil => rfl
  | cons l rest ih =>
      simp only [static_layer_loop, renders_append, ih, static_layer_ops,
        List.filter_cons]
      cases hp : present l
      · simp [renders]
      · cases hok : render_ok l <;> simp [renders]

lemma static_layer_loop_warns (present render_ok : LayerElement → Bool)
    (cw ch : ℚ) (ls : List LayerElement) :
    warns (static_layer_loop present render_ok cw ch ls)
      = ls.filter (fun l => present l && !render_ok l) := by
  induction ls with
  | nil => rfl
  | cons l rest ih =>
      simp only [static_layer_loop, warns_append, ih, static_layer_ops,
        List.filter_cons]
      cases hp : present l
      · simp [warns]
      · cases hok : render_ok l <;> simp [warns]

lemma hand_layer_loop_renders (present render_ok : LayerElement → Bool)
    (cw ch : ℚ) (hour minute : ℤ) (second : ℚ) (ls : List LayerElement) :
    renders (hand_layer_loop present render_ok cw ch hour minute second ls)
      = ls.filter (fun l => present l && (hand_layer_case hour minute second l).isSome) := by
  induction ls with
  | nil => rfl
  | cons l rest ih =>
      simp only [hand_layer_loop, renders_append, ih, List.filter_cons]
      cases hp : present l
      · simp [renders]
      · cases l <;>
          simp [renders, renders_append, hand_layer_case, apply_ite renders]

lemma hand_layer_loop_warns (present render_ok : LayerElement → Bool)
    (cw ch : ℚ) (hour minute : ℤ) (second : ℚ) (ls : List LayerElement) :
    warns (hand_layer_loop present render_ok cw ch hour minute second ls)
      = ls.filter (fun l => present l && !render_ok l
          && (hand_layer_case hour minute second l).isSome) := by
  induction ls with
  | nil => rfl
  | cons l rest ih =>
      simp only [hand_layer_loop, warns_append, ih, List.filter_cons]
      cases hp : present l
      · simp [warns]
      · cases l <;>
          [skip; skip; skip; cases hok : render_ok hourHandShadow;
           cases hok : render_ok minuteHandShadow;
           cases hok : render_ok secondHandShadow;
           cases hok : render_ok hourHand;
           cases hok : render_ok minuteHand;
           cases hok : render_ok secondHand; skip; skip; skip] <;>
          simp_all [warns, warns_append, hand_layer_case]

/-! ### Draw order (claims C3, C5, C7) -/

/-- Spec-side predicate: which layers are shadow variants of a hand. -/
def is_shadow_variant : LayerElement → Bool
  | hourHandShadow => true
  | minuteHandShadow => true
  | secondHandShadow => true
  | _ => false

/-- Spec-side map from a shadow variant to its hand. -/
def hand_of_shadow : LayerElement → Option LayerElement
  | hourHandShadow => some hourHand
  | minuteHandShadow => some minuteHand
  | secondHandShadow => some secondHand
  | _ => none

/-- Spec-side predicate on a draw order: every shadow variant is
immediately followed by its own hand. -/
def shadow_immediately_followed : List LayerElement → Bool
  | [] => true
  | [l] => (hand_of_shadow l).isNone
  | l :: l2 :: rest =>
      (match hand_of_shadow l with
       | some hnd => l2 == hnd
       | none => true)
        && shadow_immediately_followed (l2 :: rest)

/-- Spec-side angle of a dynamic-pass layer, in degrees, as the claim
states it: the hour angle for the hour hand and its shadow, and so on. -/
def hand_angle_deg (hour minute : ℤ) (second : ℚ) : LayerElement → ℚ
  | hourHandShadow => angle_hour_deg hour minute second
  | hourHand => angle_hour_deg hour minute second
  | minuteHandShadow => angle_minute_deg minute second
  | minuteHand => angle_minute_deg minute second
  | secondHandShadow => angle_second_deg second
  | secondHand => angle_second_deg second
  | _ => 0

/-- C3 counterexample: in the dynamic pass actually drawn by
draw_clock_hands (all layers present), the shadows are NOT each
immediately followed by their hand: the render order is all three shadows
first, then all three hands, so hourHandShadow is followed by
minuteHandShadow. -/
theorem dynamic_pass_not_shadow_hand_paired :
    shadow_immediately_followed
        (renders (draw_clock_hands (fun _ => true) (fun _ => true)
          400 400 400 400 0 0 0)) = false
      ∧ (renders (draw_clock_hands (fun _ => true) (fun _ => true)
          400 400 400 400 0 0 0))[1]? = some minuteHandShadow := by
  constructor <;> rfl

/-- C3 amended: the static pass renders DropShadow, Face, Marks,
FaceShadow, Glass, Frame in that exact order, and the dynamic pass renders
HourHandShadow, MinuteHandShadow, SecondHandShadow, HourHand, MinuteHand,
SecondHand in that exact order: the three shadows first, then the three
hands, each group ordered hour, minute, second (a shadow is therefore not
immediately followed by its hand). -/
theorem draw_pass_order (width height cw ch : ℚ) (hour minute : ℤ) (second : ℚ) :
    renders (draw_static_layers (fun _ => true) (fun _ => true) width height cw ch)
        = [dropShadow, face, marks, faceShadow, glass, frame]
      ∧ renders (draw_clock_hands (fun _ => true) (fun _ => true)
            width height cw ch hour minute second)
          = [hourHandShadow, minuteHandShadow, secondHandShadow,
             hourHand, minuteHand, secondHand] := by
  constructor
  · simp [draw_static_layers, renders_append, static_layer_loop_renders, renders,
      static_layers_info]
  · simp [draw_clock_hands, renders_append, hand_layer_loop_renders, renders,
      hand_layers_info, hand_layer_case]

/-- C5: for every dynamic-pass layer present in the layer set, the hand
renderer saves context state, translates by (+1, +1) exactly when the
layer is a shadow variant, rotates by that hand angle, renders into the
(0, 0, geometry width, geometry height) viewport, and restores state;
the whole pass runs inside a save / center translate / scale / rotate -90
prologue and a final restore. -/
theorem hand_layer_transforms (present : LayerElement → Bool)
    (width height cw ch : ℚ) (hour minute : ℤ) (second : ℚ) :
    draw_clock_hands present (fun _ => true) width height cw ch hour minute second
      = [CairoOp.save, CairoOp.translate (width / 2) (height / 2),
         CairoOp.scale (width / cw) (height / ch), CairoOp.rotate (-90)]
        ++ (hand_layers_info.foldr (fun l acc =>
              (if present l then
                [CairoOp.save]
                  ++ (if is_shadow_variant l then [CairoOp.translate 1 1] else [])
                  ++ [CairoOp.rotate (hand_angle_deg hour minute second l),
                      CairoOp.renderLayer l 0 0 cw ch, CairoOp.restore]
              else []) ++ acc) [])
        ++ [CairoOp.restore] := by
  simp only [draw_clock_hands, hand_layers_info, hand_layer_loop, hand_layer_case,
    List.foldr, is_shadow_variant, hand_angle_deg]
  cases present hourHandShadow <;> cases present minuteHandShadow <;>
    cases present secondHandShadow <;> cases present hourHand <;>
    cases present minuteHand <;> cases present secondHand <;> simp

/-- C7: during drawing, an absent layer is skipped silently (it is neither
rendered nor warned about), every present layer is render-attempted
regardless of any other layer failing, a present layer that fails to
rasterize is warned about exactly once for that frame while compositing
continues, and both draw functions are total: no error value propagates
out of the paint path. -/
theorem draw_failures_skipped (present render_ok : LayerElement → Bool)
    (width height cw ch : ℚ) (hour minute : ℤ) (second : ℚ) :
    renders (draw_static_layers present render_ok width height cw ch)
        = static_layers_info.filter present
      ∧ warns (draw_static_layers present render_ok width height cw ch)
          = static_layers_info.filter (fun l => present l && !render_ok l)
      ∧ renders (draw_clock_hands present render_ok width height cw ch hour minute second)
          = hand_layers_info.filter present
      ∧ warns (draw_clock_hands present render_ok width height cw ch hour minute second)
          = hand_layers_info.filter (fun l => present l && !render_ok l) := by
  refine ⟨?_, ?_, ?_, ?_⟩
  · simp [draw_static_layers, renders_append, static_layer_loop_renders, renders]
  · simp [draw_static_layers, warns_append, static_layer_loop_warns, warns]
  · rw [draw_clock_hands, renders_append, renders_append,
      hand_layer_loop_renders]
    simp [renders, hand_layers_info, hand_layer_case, List.filter_cons,
      List.filter_nil]
  · rw [draw_clock_hands, warns_append, warns_append, hand_layer_loop_warns]
    simp [warns, hand_layers_info, hand_layer_case, List.filter_cons,
      List.filter_nil]

/-! ### Theme loading (load_svg and load_clock_svgs, clok4.c lines 64-119)

The filesystem is modelled by an availability oracle: avail l is true when
rsvg_handle_new_from_file succeeds for the file of layer l. load_svg with
needed = true calls exit(EXIT_FAILURE) on failure, which is modelled as an
Except.error carrying the failing layer; with needed = false it logs a
warning and returns NULL for that slot. -/

/-- The environment the loader runs against: which layer files load, and
the intrinsic pixel size rsvg_handle_get_intrinsic_size_in_pixels reports
for the drop-shadow image (clok4.c line 115). -/
structure SvgEnv where
  avail : LayerElement → Bool
  intrinsic_w : ℚ
  intrinsic_h : ℚ

/-- The sequence of load_svg calls in load_clock_svgs (clok4.c lines
98-111), in program order, each with its needed flag; the two second-hand
loads are skipped when dont_show_seconds is set (lines 104-107). -/
def load_sequence (dont_show_seconds : Bool) : List (LayerElement × Bool) :=
  [(dropShadow, true), (face, true), (faceShadow, false), (marks, false),
   (minuteHand, true), (minuteHandShadow, false)]
    ++ (if dont_show_seconds then []
        else [(secondHand, false), (secondHandShadow, false)])
    ++ [(hourHand, true), (hourHandShadow, false), (glass, false), (frame, false)]

/-- The four layers loaded with needed = true (clok4.c lines 98, 99, 102,
108). -/
def mandatory_layers : List LayerElement :=
  [dropShadow, face, minuteHand, hourHand]

/-- Sequential execution of the load_svg calls: the result is either the
first mandatory layer that failed (the process exits there), or the filled
handle slots together with the optional layers that drew a warning, in
program order. -/
def load_layers (avail : LayerElement → Bool) :
    List (LayerElement × Bool) → Except LayerElement ((LayerElement → Bool) × List LayerElement)
  | [] => Except.ok (fun _ => false, [])
  | (l, needed) :: rest =>
      if avail l then
        match load_layers avail rest with
        | Except.ok (hs, ws) => Except.ok (Function.update hs l true, ws)
        | Except.error e => Except.error e
      else if needed then
        Except.error l
      else
        match load_layers avail rest with
        | Except.ok (hs, ws) => Except.ok (hs, l :: ws)
        | Except.error e => Except.error e

/-- The function load_clock_svgs (clok4.c lines 97-119): run the load
sequence, then, when the drop-shadow handle is present, recompute the
clock geometry as the ceiling of its intrinsic pixel size (lines
113-118); otherwise the geometry globals keep their previous values. -/
def load_clock_svgs (env : SvgEnv) (dont_show_seconds : Bool)
    (clock_width clock_height : ℤ) :
    Except LayerElement ((LayerElement → Bool) × List LayerElement × ℤ × ℤ) :=
  match load_layers env.avail (load_sequence dont_show_seconds) with
  | Except.error e => Except.error e
  | Except.ok (hs, ws) =>
      if hs dropShadow then
        Except.ok (hs, ws, ⌈env.intrinsic_w⌉, ⌈env.intrinsic_h⌉)
      else
        Except.ok (hs, ws, clock_width, clock_height)

/-- Observable outcome of one program run, as far as the claims reach. -/
structure RunResult where
  exit_code : ℤ
  config_written : Bool
  clock_width : ℤ
  clock_height : ℤ
  deriving DecidableEq, Repr

/-- The process lifecycle around loading, from main and on_app_activate_cb
(clok4.c lines 389-470): activation calls load_clock_svgs; a fatal load
calls exit(EXIT_FAILURE) inside load_svg (line 76), so save_key_file
(line 449) never runs and no config file is written; on a successful run
the app exits with status 0 and the config is saved. -/
def app_lifecycle (env : SvgEnv) (dont_show_seconds : Bool)
    (clock_width clock_height : ℤ) : RunResult :=
  match load_clock_svgs env dont_show_seconds clock_width clock_height with
  | Except.error _ =>
      { exit_code := 1, config_written := false,
        clock_width := clock_width, clock_height := clock_height }
  | Except.ok (_, _, w, h) =>
      { exit_code := 0, config_written := true, clock_width := w, clock_height := h }

lemma load_layers_ok (avail : LayerElement → Bool)
    (specs : List (LayerElement × Bool))
    (hm : ∀ p ∈ specs, p.2 = true → avail p.1 = true) :
    load_layers avail specs
      = Except.ok (fun l => (specs.map Prod.fst).contains l && avail l,
          (specs.filter (fun p => !avail p.1)).map Prod.fst) := by
  induction specs with
  | nil =>
      refine congrArg Except.ok (Prod.ext (funext fun l => by simp) rfl)
  | cons p rest ih =>
      obtain ⟨l, needed⟩ := p
      have hrest : ∀ q ∈ rest, q.2 = true → avail q.1 = true :=
        fun q hq => hm q (List.mem_cons_of_mem _ hq)
      cases hava : avail l
      · have hopt : needed = false := by
          cases hneed : needed
          · rfl
          · exact absurd (hm (l, needed) (List.mem_cons_self _ _) hneed) (by simp [hava])
        subst hopt
        simp only [load_layers, hava, Bool.false_eq_true, if_false, ih hrest]
        congr 1
        refine Prod.ext ?_ ?_
        · funext x
          by_cases hx : x = l
          · subst hx; simp [hava]
          · simp [hx]
        · simp [List.filter_cons, hava]
      · simp only [load_layers, hava, if_true, ih hrest]
        congr 1
        refine Prod.ext ?_ ?_
        · funext x
          by_cases hx : x = l
          · subst hx; simp [Function.update, hava]
          · simp [Function.update, hx]
        · simp [List.filter_cons, hava]

lemma load_layers_fatal (avail : LayerElement → Bool)
    (specs : List (LayerElement × Bool))
    (hm : ∃ p ∈ specs, p.2 = true ∧ avail p.1 = false) :
    ∃ l, load_layers avail specs = Except.error l
      ∧ avail l = false ∧ (l, true) ∈ specs := by
  induction specs with
  | nil => simp at hm
  | cons p rest ih =>
      obtain ⟨l, needed⟩ := p
      cases hava : avail l
      · cases hneed : needed
        · have hrest : ∃ q ∈ rest, q.2 = true ∧ avail q.1 = false := by
            obtain ⟨q, hq, hq2, hq3⟩ := hm
            rcases List.mem_cons.1 hq with hq | hq
            · rw [hq] at hq2; simp [hneed] at hq2
            · exact ⟨q, hq, hq2, hq3⟩
          obtain ⟨e, he, he2, he3⟩ := ih hrest
          refine ⟨e, ?_, he2, List.mem_cons_of_mem _ he3⟩
          simp only [load_layers, hava, Bool.false_eq_true, if_false, hneed, he]
        · exact ⟨l, by simp only [load_layers, hava, Bool.false_eq_true, if_false,
            hneed, if_true], hava, List.mem_cons_self _ _⟩
      · have hrest : ∃ q ∈ rest, q.2 = true ∧ avail q.1 = false := by
          obtain ⟨q, hq, hq2, hq3⟩ := hm
          rcases List.mem_cons.1 hq with hq | hq
          · rw [hq] at hq3; simp [hava] at hq3
          · exact ⟨q, hq, hq2, hq3⟩
        obtain ⟨e, he, he2, he3⟩ := ih hrest
        refine ⟨e, ?_, he2, List.mem_cons_of_mem _ he3⟩
        simp only [load_layers, hava, if_true, he]

lemma contains_of_mem {l : List LayerElement} {a : LayerElement} (h : a ∈ l) :
    l.contains a = true :=
  List.elem_eq_true_of_mem h

lemma mandatory_in_sequence (dss : Bool) (l : LayerElement)
    (hl : l ∈ mandatory_layers) : (l, true) ∈ load_sequence dss := by
  fin_cases hl <;> cases dss <;> decide

lemma needed_imp_mandatory (dss : Bool) :
    ∀ p ∈ load_sequence dss, p.2 = true → p.1 ∈ mandatory_layers := by
  cases dss <;> decide

/-- C4: if a mandatory layer (DropShadow, Face, HourHand or MinuteHand)
fails to load, the process terminates with a non-zero exit code and no
config file is written; if an optional layer fails to load, its slot is
left empty, a warning is recorded for it, and loading continues with the
remaining layers, every other available layer still being loaded. -/
theorem theme_load_error_handling (env : SvgEnv) (dss : Bool) (w h : ℤ) :
    ((∃ l ∈ mandatory_layers, env.avail l = false) →
        (app_lifecycle env dss w h).exit_code ≠ 0
      ∧ (app_lifecycle env dss w h).config_written = false)
  ∧ ((∀ m ∈ mandatory_layers, env.avail m = true) →
      ∃ hs ws gw gh,
        load_clock_svgs env dss w h = Except.ok (hs, ws, gw, gh)
        ∧ (∀ l, env.avail l = false → hs l = false)
        ∧ (∀ l, l ∈ (load_sequence dss).map Prod.fst → env.avail l = false → l ∈ ws)
        ∧ (∀ l, l ∈ (load_sequence dss).map Prod.fst → env.avail l = true →
            hs l = true)) := by
  constructor
  · rintro ⟨l, hlm, hlf⟩
    obtain ⟨e, he, -, -⟩ := load_layers_fatal env.avail (load_sequence dss)
      ⟨(l, true), mandatory_in_sequence dss l hlm, rfl, hlf⟩
    simp [app_lifecycle, load_clock_svgs, he]
  · intro hmand
    have hm : ∀ p ∈ load_sequence dss, p.2 = true → env.avail p.1 = true :=
      fun p hp hp2 => hmand p.1 (needed_imp_mandatory dss p hp hp2)
    have hok := load_layers_ok env.avail (load_sequence dss) hm
    simp only [load_clock_svgs, hok]
    by_cases hds : (((load_sequence dss).map Prod.fst).contains dropShadow
        && env.avail dropShadow) = true
    · refine ⟨_, _, _, _, by rw [if_pos hds], ?_, ?_, ?_⟩
      · intro l hl; simp [hl]
      · intro l hl hlf
        obtain ⟨p, hp, hpl⟩ := List.mem_map.1 hl
        exact List.mem_map.2 ⟨p, List.mem_filter.2 ⟨hp, by simp [hpl, hlf]⟩, hpl⟩
      · intro l hl hla
        simp only [hla, Bool.and_true]
        exact contains_of_mem hl
    · refine ⟨_, _, _, _, by rw [if_neg hds], ?_, ?_, ?_⟩
      · intro l hl; simp [hl]
      · intro l hl hlf
        obtain ⟨p, hp, hpl⟩ := List.mem_map.1 hl
        exact List.mem_map.2 ⟨p, List.mem_filter.2 ⟨hp, by simp [hpl, hlf]⟩, hpl⟩
      · intro l hl hla
        simp only [hla, Bool.and_true]
        exact contains_of_mem hl

/-- Witness for theme_load_error_handling: a theme missing clock-face.svg
exits non-zero without writing config; a theme missing only
clock-glass.svg loads, leaves the glass slot empty and warns about it. -/
theorem theme_load_error_handling_witness :
    ((app_lifecycle ⟨fun l => !(l == face), 100, 100⟩ false 400 400).exit_code ≠ 0
      ∧ (app_lifecycle ⟨fun l => !(l == face), 100, 100⟩ false 400 400).config_written
          = false)
  ∧ (∃ hs ws gw gh,
        load_clock_svgs ⟨fun l => !(l == glass), 100, 100⟩ false 400 400
          = Except.ok (hs, ws, gw, gh)
        ∧ hs glass = false ∧ glass ∈ ws) := by
  constructor
  · exact (theme_load_error_handling ⟨fun l => !(l == face), 100, 100⟩ false 400 400).1
      ⟨face, by decide, by decide⟩
  · obtain ⟨hs, ws, gw, gh, heq, h1, h2, h3⟩ :=
      (theme_load_error_handling ⟨fun l => !(l == glass), 100, 100⟩ false 400 400).2
        (by decide)
    exact ⟨hs, ws, gw, gh, heq, h1 glass (by decide), h2 glass (by decide) (by decide)⟩

/-- C8 counterexample: with a persisted window size of 500 by 500 and the
drop-shadow asset unavailable, the process exits fatally and the clock
geometry globals keep the value 500, not the 400 by 400 default the claim
states. -/
theorem clock_geometry_no_400_default :
    (app_lifecycle ⟨fun l => !(l == dropShadow), 123, 123⟩ false 500 500).exit_code ≠ 0
  ∧ (app_lifecycle ⟨fun l => !(l == dropShadow), 123, 123⟩ false 500 500).clock_width
      = 500
  ∧ ¬ ((app_lifecycle ⟨fun l => !(l == dropShadow), 123, 123⟩ false 500 500).clock_width
        = 400
      ∧ (app_lifecycle ⟨fun l => !(l == dropShadow), 123, 123⟩ false 500 500).clock_height
        = 400) := by
  refine ⟨by decide, by decide, ?_⟩
  rintro ⟨hc, -⟩
  revert hc
  decide

/-- C8 amended: on every successful theme load (DropShadow is mandatory,
so every successful load has it) the clock geometry is recomputed as the
ceiling of the DropShadow image intrinsic pixel size; if DropShadow is
unavailable the process terminates fatally and the geometry globals are
left at their previous values (initially 400 by 400, but whatever the
persisted config set them to), not reset to 400 by 400. -/
theorem clock_geometry_recompute (env : SvgEnv) (dss : Bool) (w h : ℤ) :
    ((∀ m ∈ mandatory_layers, env.avail m = true) →
        ∃ hs ws, load_clock_svgs env dss w h
          = Except.ok (hs, ws, ⌈env.intrinsic_w⌉, ⌈env.intrinsic_h⌉))
  ∧ (env.avail dropShadow = false →
        (app_lifecycle env dss w h).exit_code ≠ 0
      ∧ (app_lifecycle env dss w h).clock_width = w
      ∧ (app_lifecycle env dss w h).clock_height = h) := by
  constructor
  · intro hmand
    have hm : ∀ p ∈ load_sequence dss, p.2 = true → env.avail p.1 = true :=
      fun p hp hp2 => hmand p.1 (needed_imp_mandatory dss p hp hp2)
    have hok := load_layers_ok env.avail (load_sequence dss) hm
    simp only [load_clock_svgs, hok]
    have hdsm : dropShadow ∈ (load_sequence dss).map Prod.fst := by
      cases dss <;> decide
    have hcond : (((load_sequence dss).map Prod.fst).contains dropShadow
        && env.avail dropShadow) = true := by
      rw [contains_of_mem hdsm, hmand dropShadow (by decide), Bool.and_self]
    rw [if_pos hcond]
    exact ⟨_, _, rfl⟩
  · intro hds
    obtain ⟨e, he, -, -⟩ := load_layers_fatal env.avail (load_sequence dss)
      ⟨(dropShadow, true), mandatory_in_sequence dss dropShadow (by decide), rfl, hds⟩
    simp [app_lifecycle, load_clock_svgs, he]

/-- Witness for clock_geometry_recompute: with every asset available and
an intrinsic drop-shadow size of 123.5 by 456 pixels, loading stores the
geometry 124 by 456. -/
theorem clock_geometry_recompute_witness :
    ∃ hs ws, load_clock_svgs ⟨fun _ => true, 247/2, 456⟩ false 400 400
        = Except.ok (hs, ws, ⌈(247/2 : ℚ)⌉, ⌈(456 : ℚ)⌉) :=
  (clock_geometry_recompute ⟨fun _ => true, 247/2, 456⟩ false 400 400).1
    (by decide)

/-! ### Config persistence (save_key_file and process_config, clok4.c
lines 309-387)

GKeyFile is modelled as an association list from key to value inside the
single group Settings. A value set by g_key_file_set_integer is an
integer, one set by g_key_file_set_string is a string; a KfValue.str also
stands for a persisted value that is not in integer format, for which
g_key_file_get_integer reports G_KEY_FILE_ERROR_INVALID_VALUE and returns
0, exactly as it returns 0 for a missing key. -/

/-- A value stored under one key of the Settings group. -/
inductive KfValue where
  | int (i : ℤ)
  | str (s : String)
  deriving DecidableEq, Repr

/-- The Settings group of the key file as an association list. -/
abbrev KeyFile := List (String × KfValue)

/-- Setting a key replaces any previous binding. -/
def kf_set (kf : KeyFile) (key : String) (v : KfValue) : KeyFile :=
  (key, v) :: kf.filter (fun p => p.1 != key)

/-- g_key_file_get_integer with a NULL error argument: the stored integer,
or 0 when the key is missing or its value is not an integer. -/
def kf_get_integer (kf : KeyFile) (key : String) : ℤ :=
  match kf.lookup key with
  | some (KfValue.int i) => i
  | some (KfValue.str _) => 0
  | none => 0

/-- g_key_file_get_string with a NULL error argument: none when the key is
missing. -/
def kf_get_string (kf : KeyFile) (key : String) : Option String :=
  match kf.lookup key with
  | some (KfValue.str s) => some s
  | some (KfValue.int i) => some (toString i)
  | none => none

/-- The four persisted settings (clok4.c globals at lines 46-49). -/
structure Settings where
  width : ℤ
  height : ℤ
  theme : String
  hz : ℤ
  deriving DecidableEq, Repr

/-- The function save_key_file (clok4.c lines 309-320): store width,
height, theme and hz in the Settings group, in that order. -/
def save_key_file (s : Settings) (kf : KeyFile) : KeyFile :=
  kf_set (kf_set (kf_set (kf_set kf "width" (KfValue.int s.width))
    "height" (KfValue.int s.height)) "theme" (KfValue.str s.theme))
    "hz" (KfValue.int s.hz)

/-- Conversion of a C gint value to the guint globals clock_width and
clock_height (clok4.c lines 46, 359, 362): reduction modulo 2^32. -/
def guint_of_gint (i : ℤ) : ℤ := i % (2 ^ 32)

/-- The config-reading part of process_config (clok4.c lines 359-373):
width and height fall back to 400 when g_key_file_get_integer yields 0
(missing key, zero, or a non-integer value), theme falls back to the
string default when missing, hz falls back to 10 when the integer read
yields 0. -/
def process_config_settings (kf : KeyFile) : Settings :=
  let w := guint_of_gint (kf_get_integer kf "width")
  let w := if w = 0 then 400 else w
  let h := guint_of_gint (kf_get_integer kf "height")
  let h := if h = 0 then 400 else h
  let t := (kf_get_string kf "theme").getD "default"
  let z := kf_get_integer kf "hz"
  let z := if z = 0 then 10 else z
  { width := w, height := h, theme := t, hz := z }

lemma lookup_filter_ne (kf : KeyFile) (key other : String) (hne : key ≠ other) :
    (kf.filter (fun p => p.1 != other)).lookup key = kf.lookup key := by
  induction kf with
  | nil => rfl
  | cons p rest ih =>
      obtain ⟨k, v⟩ := p
      by_cases hk : k = other
      · subst hk
        have h1 : ((k, v).1 != k) = false := by simp
        have h2 : (key == k) = false := by simp [hne]
        simp [List.filter_cons, h1, List.lookup, h2, ih]
      · have h1 : ((k, v).1 != other) = true := by simp [hk]
        by_cases hkey : key = k
        · subst hkey
          simp [List.filter_cons, h1, List.lookup]
        · have h2 : (key == k) = false := by simp [hkey]
          simp [List.filter_cons, h1, List.lookup, h2, ih]

lemma kf_set_lookup_same (kf : KeyFile) (key : String) (v : KfValue) :
    (kf_set kf key v).lookup key = some v := by
  simp [kf_set, List.lookup]

lemma kf_set_lookup_other (kf : KeyFile) (key other : String) (v : KfValue)
    (hne : key ≠ other) :
    (kf_set kf other v).lookup key = kf.lookup key := by
  have h2 : (key == other) = false := by simp [hne]
  simp [kf_set, List.lookup, h2, lookup_filter_ne kf key other hne]

/-- C6: saving any settings with positive (gint-representable) width,
height and hz and then reloading the config yields the identical four
values; in particular Settings(500, 500, foo, 20) round-trips unchanged. -/
theorem settings_round_trip (s : Settings) (kf : KeyFile)
    (hw0 : 0 < s.width) (hw1 : s.width < 2 ^ 31)
    (hh0 : 0 < s.height) (hh1 : s.height < 2 ^ 31)
    (hz0 : 0 < s.hz) (hz1 : s.hz < 2 ^ 31) :
    process_config_settings (save_key_file s kf) = s := by
  have hlw : (save_key_file s kf).lookup "width" = some (KfValue.int s.width) := by
    rw [save_key_file, kf_set_lookup_other _ _ _ _ (by decide),
      kf_set_lookup_other _ _ _ _ (by decide),
      kf_set_lookup_other _ _ _ _ (by decide), kf_set_lookup_same]
  have hlh : (save_key_file s kf).lookup "height" = some (KfValue.int s.height) := by
    rw [save_key_file, kf_set_lookup_other _ _ _ _ (by decide),
      kf_set_lookup_other _ _ _ _ (by decide), kf_set_lookup_same]
  have hlt : (save_key_file s kf).lookup "theme" = some (KfValue.str s.theme) := by
    rw [save_key_file, kf_set_lookup_other _ _ _ _ (by decide), kf_set_lookup_same]
  have hlz : (save_key_file s kf).lookup "hz" = some (KfValue.int s.hz) := by
    rw [save_key_file, kf_set_lookup_same]
  have hwmod : guint_of_gint s.width = s.width :=
    Int.emod_eq_of_lt (le_of_lt hw0) (lt_trans hw1 (by norm_num))
  have hhmod : guint_of_gint s.height = s.height :=
    Int.emod_eq_of_lt (le_of_lt hh0) (lt_trans hh1 (by norm_num))
  cases s with
  | mk width height theme hz =>
      simp only [process_config_settings, kf_get_integer, kf_get_string,
        hlw, hlh, hlt, hlz] at *
      rw [hwmod, hhmod]
      simp [ne_of_gt hw0, ne_of_gt hh0, ne_of_gt hz0]

/-- Witness for settings_round_trip at Settings(500, 500, foo, 20). -/
theorem settings_round_trip_witness :
    process_config_settings (save_key_file ⟨500, 500, "foo", 20⟩ [])
      = ⟨500, 500, "foo", 20⟩ :=
  settings_round_trip ⟨500, 500, "foo", 20⟩ [] (by norm_num) (by norm_num)
    (by norm_num) (by norm_num) (by norm_num) (by norm_num)

/-- C10: an integer key among width, height, hz whose value is missing,
zero, or not in integer format reloads as the hard default (400, 400 and
10 respectively); a missing theme key yields the theme default; and a
persisted zero width, height and hz reload as the defaults, so zero values
do not survive the save-then-load round trip. -/
theorem config_integer_defaults (kf : KeyFile) (s0 : String) (t : String) :
    ((kf.lookup "width" = none ∨ kf.lookup "width" = some (KfValue.int 0)
        ∨ kf.lookup "width" = some (KfValue.str s0)) →
      (process_config_settings kf).width = 400)
  ∧ ((kf.lookup "height" = none ∨ kf.lookup "height" = some (KfValue.int 0)
        ∨ kf.lookup "height" = some (KfValue.str s0)) →
      (process_config_settings kf).height = 400)
  ∧ ((kf.lookup "hz" = none ∨ kf.lookup "hz" = some (KfValue.int 0)
        ∨ kf.lookup "hz" = some (KfValue.str s0)) →
      (process_config_settings kf).hz = 10)
  ∧ (kf.lookup "theme" = none → (process_config_settings kf).theme = "default")
  ∧ process_config_settings (save_key_file ⟨0, 0, t, 0⟩ kf)
      = ⟨400, 400, t, 10⟩ := by
  refine ⟨?_, ?_, ?_, ?_, ?_⟩
  · rintro (hl | hl | hl) <;>
      simp [process_config_settings, kf_get_integer, hl, guint_of_gint]
  · rintro (hl | hl | hl) <;>
      simp [process_config_settings, kf_get_integer, hl, guint_of_gint]
  · rintro (hl | hl | hl) <;>
      simp [process_config_settings, kf_get_integer, hl]
  · intro hl
    simp [process_config_settings, kf_get_string, hl]
  · have hlw : (save_key_file ⟨0, 0, t, 0⟩ kf).lookup "width"
        = some (KfValue.int 0) := by
      rw [save_key_file, kf_set_lookup_other _ _ _ _ (by decide),
        kf_set_lookup_other _ _ _ _ (by decide),
        kf_set_lookup_other _ _ _ _ (by decide), kf_set_lookup_same]
    have hlh : (save_key_file ⟨0, 0, t, 0⟩ kf).lookup "height"
        = some (KfValue.int 0) := by
      rw [save_key_file, kf_set_lookup_other _ _ _ _ (by decide),
        kf_set_lookup_other _ _ _ _ (by decide), kf_set_lookup_same]
    have hlt : (save_key_file ⟨0, 0, t, 0⟩ kf).lookup "theme"
        = some (KfValue.str t) := by
      rw [save_key_file, kf_set_lookup_other _ _ _ _ (by decide), kf_set_lookup_same]
    have hlz : (save_key_file ⟨0, 0, t, 0⟩ kf).lookup "hz"
        = some (KfValue.int 0) := by
      rw [save_key_file, kf_set_lookup_same]
    simp [process_config_settings, kf_get_integer, kf_get_string,
      hlw, hlh, hlt, hlz, guint_of_gint]

/-- Witness for config_integer_defaults on the empty key file (first run:
no config file) and for the zero round trip with theme foo. -/
theorem config_integer_defaults_witness :
    (process_config_settings []).width = 400
  ∧ (process_config_settings []).height = 400
  ∧ (process_config_settings []).hz = 10
  ∧ (process_config_settings []).theme = "default"
  ∧ process_config_settings (save_key_file ⟨0, 0, "foo", 0⟩ [])
      = ⟨400, 400, "foo", 10⟩ := by
  have h := config_integer_defaults [] "x" "foo"
  exact ⟨h.1 (Or.inl rfl), h.2.1 (Or.inl rfl), h.2.2.1 (Or.inl rfl),
    h.2.2.2.1 rfl, h.2.2.2.2⟩

/-! ### Redraw timer (on_app_activate_cb, clok4.c line 416) -/

/-- The tick interval in milliseconds passed to g_timeout_add: the C
integer expression 1000 / refresh_rate, which truncates toward zero. -/
def on_activate_timeout_ms (refresh_rate : ℤ) : ℤ :=
  Int.tdiv 1000 refresh_rate

/-- C9 counterexample: at the positive refresh rate 3 Hz the registered
tick interval is 333 ms, which is not equal to 1000/3 ms. -/
theorem timeout_not_exact_division :
    on_activate_timeout_ms 3 = 333
  ∧ ((on_activate_timeout_ms 3 : ℚ) ≠ 1000 / 3) := by
  constructor
  · decide
  · intro h
    rw [show on_activate_timeout_ms 3 = 333 by decide] at h
    norm_num at h

/-- C9 amended: for every positive configured refresh rate, the periodic
redraw timer is registered with a tick interval of floor(1000 / hz)
milliseconds (C integer division); this equals 1000/hz exactly only when
hz divides 1000. -/
theorem timeout_interval_floor (hz : ℤ) (hpos : 0 < hz) :
    on_activate_timeout_ms hz = ⌊(1000 : ℚ) / (hz : ℚ)⌋ := by
  have ht : Int.tdiv 1000 hz = 1000 / hz :=
    Int.tdiv_eq_ediv (by norm_num) (le_of_lt hpos)
  obtain ⟨n, rfl⟩ : ∃ n : ℕ, hz = (n : ℤ) :=
    ⟨hz.toNat, (Int.toNat_of_nonneg (le_of_lt hpos)).symm⟩
  rw [on_activate_timeout_ms, ht, ← Rat.floor_intCast_div_natCast 1000 n]
  norm_num

/-- Witness for timeout_interval_floor at the default 10 Hz: 100 ms. -/
theorem timeout_interval_floor_witness :
    on_activate_timeout_ms 10 = ⌊(1000 : ℚ) / ((10 : ℤ) : ℚ)⌋
  ∧ on_activate_timeout_ms 10 = 100 :=
  ⟨timeout_interval_floor 10 (by norm_num), by decide⟩

end Clok4
